import Mathlib

/-!
Shallow embedding of repole/mqlalchemy (`src/mqlalchemy/__init__.py`), the
MongoDB-style-filter to SQLAlchemy-predicate compiler, together with theorems
checking its natural-language specification against the code.

Modelling conventions:
* Python dicts are insertion-ordered association lists (`List (String × MqlValue)`).
* Python floats are modelled as rationals (`Rat`); `datetime` objects are not
  modelled (filter documents are JSON-like input).
* SQLAlchemy expressions are modelled by the `Pred` syntax tree; caller-supplied
  nested-condition expressions by the constructor `Pred.nestedCond`.
* The `while query_stack:` loop of `MqlBuilder.parse_mql_filters` is embedded as a
  fuel-indexed step function. Exhausting the fuel yields the artificial error
  `Err.outOfFuel` (the Python loop has no such exit); every theorem below either
  supplies ample fuel for its concrete document or quantifies over the fuel.
* Python string helpers (`str.split(".")`, `".".join`, `str.lower`, `int(...)`,
  slicing) are re-implemented structurally over `String.data` so that they compute
  definitionally; each mirrors the documented CPython behaviour at the call sites.
-/

namespace Mql

/-- JSON-like values appearing in an MQL filter document and on the work stack of
the compiler (the Python work stack holds dicts, sentinel strings, and whatever
the user placed inside `$and`/`$or` arrays). -/
inductive MqlValue where
  | vNull
  | vBool (b : Bool)
  | vInt (n : Int)
  | vFloat (q : Rat)
  | vStr (s : String)
  | vList (xs : List MqlValue)
  | vDoc (entries : List (String × MqlValue))

/-- Filter documents: Python dicts in insertion order. -/
abbrev Doc := List (String × MqlValue)

/-- Is the value a Python dict? (`isinstance(item, dict)`). -/
def MqlValue.isDoc : MqlValue → Bool
  | .vDoc _ => true
  | _ => false

/-- Is the value a Python bool? (`isinstance(value, bool)`). -/
def MqlValue.isBool : MqlValue → Bool
  | .vBool _ => true
  | _ => false

/-! ### Re-implemented Python string primitives (structural, so they compute) -/

/-- Auxiliary for `splitDot`: split a character list at every dot. -/
def splitDotAux : List Char → List Char → List String
  | [], acc => [String.mk acc.reverse]
  | c :: rest, acc =>
    if c = '.' then String.mk acc.reverse :: splitDotAux rest []
    else splitDotAux rest (c :: acc)

/-- Python `s.split(".")`: in particular `"".split(".") == [""]` and empty
segments are preserved (`"a..b" -> ["a", "", "b"]`). -/
def splitDot (s : String) : List String := splitDotAux s.data []

/-- Python `".".join(l)`. -/
def joinDot (l : List String) : String :=
  match l with
  | [] => ""
  | x :: xs => xs.foldl (fun acc s => acc ++ "." ++ s) x

/-- Python `s.lower()` (ASCII is all that occurs here). -/
def lowerStr (s : String) : String := String.mk (s.data.map Char.toLower)

/-- Python `s.startswith("$")`. -/
def startsWithDollar (s : String) : Bool :=
  match s.data with
  | c :: _ => c = '$'
  | [] => false

/-- Python `s[0].isdigit()` guarded by nonemptiness, as at the index-segment
checks (`len(attr_name) > 0 and attr_name[0].isdigit()`). The unguarded uses in
the source would raise `IndexError` on an empty segment; those sites are only
ever reached with nonempty segments (resolution fails first otherwise). -/
def headCharIsDigit (s : String) : Bool :=
  match s.data with
  | c :: _ => c.isDigit
  | [] => false

/-- Python string slice `s[n:]` (by characters; ASCII here). -/
def strDropChars (s : String) (n : Nat) : String := String.mk (s.data.drop n)

/-- Parse a nonempty run of decimal digits. -/
def digitsToNat? : List Char → Option Nat
  | [] => none
  | cs =>
    if cs.all Char.isDigit then
      some (cs.foldl (fun acc c => acc * 10 + (c.toNat - '0'.toNat)) 0)
    else none

/-- Python `int(s)` on a string: optional sign then digits, else `ValueError`.
(Leading/trailing whitespace tolerance of CPython is not modelled; no call in
the claims feeds whitespace-padded numerals.) -/
def parseIntStr (s : String) : Option Int :=
  match s.data with
  | '-' :: rest => (digitsToNat? rest).map (fun n => -(n : Int))
  | '+' :: rest => (digitsToNat? rest).map (fun n => (n : Int))
  | cs => (digitsToNat? cs).map (fun n => (n : Int))

/-- Python `float(s)` on a string: optional sign, digits, optional fractional
part (exponents/inf/nan are not modelled; no claim exercises them). -/
def parseFloatStr (s : String) : Option Rat :=
  let core : List Char → Option Rat := fun cs =>
    match (splitDotAux cs []) with
    | [a] => (digitsToNat? a.data).map (fun n => (n : Rat))
    | [a, b] =>
      match digitsToNat? a.data, digitsToNat? b.data with
      | some x, some y => some ((x : Rat) + (y : Rat) / ((10 : Rat) ^ b.length))
      | _, _ => none
    | _ => none
  match s.data with
  | '-' :: rest => (core rest).map (fun q => -q)
  | '+' :: rest => core rest
  | cs => core cs

/-! ### Schema model (the SQLAlchemy model-metadata collaborator) -/

/-- Column types, collapsing the alias lists `text_types`, `int_types`, ... of
`MqlBuilder`; `tUnknownType` stands for any vendor/custom type outside all of
those lists. -/
inductive AlchemyType where
  | tInt
  | tText
  | tBool
  | tDate
  | tDateTime
  | tFloat
  | tTime
  | tUnknownType (name : String)
deriving DecidableEq

/-- A model attribute: a column of some type, or a relationship to a target
model with `uselist` cardinality. -/
inductive FieldDesc where
  | col (ty : AlchemyType)
  | rel (target : String) (uselist : Bool)
deriving DecidableEq

/-- A SQLAlchemy declarative model: a name plus named attributes. -/
structure ModelDef where
  name : String
  fields : List (String × FieldDesc)

/-- A closed universe of models, looked up by name (relationship targets). -/
abbrev Schema := List ModelDef

def lookupModel (sch : Schema) (n : String) : Option ModelDef :=
  sch.find? (fun m => m.name == n)

def lookupField (m : ModelDef) (f : String) : Option FieldDesc :=
  (m.fields.find? (fun kv => kv.1 == f)).map (fun kv => kv.2)

def lookupFieldIn (sch : Schema) (modelName f : String) : Option FieldDesc :=
  (lookupModel sch modelName).bind (fun m => lookupField m f)

/-- An element of the list built by `_get_class_attributes`: either a model
class itself or an instrumented attribute `Owner.field`. A model class has no
`.property`; an attribute's `.property` is a `ColumnProperty` or
`RelationshipProperty` according to its `FieldDesc`. -/
inductive ClassAttr where
  | modelCls (name : String)
  | instAttr (owner : String) (field : String) (desc : FieldDesc)
deriving DecidableEq

/-- Reference to an instrumented attribute inside an emitted expression. -/
structure AttrRef where
  owner : String
  field : String
deriving DecidableEq

def ClassAttr.toRef : ClassAttr → AttrRef
  | .modelCls n => ⟨n, ""⟩
  | .instAttr o f _ => ⟨o, f⟩

/-- Is `hasattr(x, "property") and isinstance(x.property, RelationshipProperty)`. -/
def isRelationshipAttr : ClassAttr → Bool
  | .instAttr _ _ (.rel _ _) => true
  | _ => false

/-! ### Errors -/

/-- Raw Python exceptions that can arise below the Mql layer. -/
inductive PyErr where
  | typeError (msg : String)
  | valueError (msg : String)
  | attributeError
deriving DecidableEq

/-- Payload of `MqlFieldError` / `MqlFieldPermissionError`: the structured error
attributes stored by its `__init__`. -/
structure FieldErr where
  data_key : String
  filters : MqlValue
  op : Option String
  message : String
  code : String

/-- Errors that a single loop iteration (one popped item) of
`parse_mql_filters` can raise. `MqlTooComplex` is absent by construction: it is
raised only by the stack-size guard in the loop head, never by the body. -/
inductive ItemErr where
  | fieldError (e : FieldErr)
  | permissionError (e : FieldErr)
  | attributeError
  | pyError (e : PyErr)

/-- All outcomes of a compile that are exceptional in Python, plus the
fuel-exhaustion artifact of the embedding. -/
inductive Err where
  | tooComplex
  | fieldError (e : FieldErr)
  | permissionError (e : FieldErr)
  | attributeError
  | pyError (e : PyErr)
  | outOfFuel

def ItemErr.toErr : ItemErr → Err
  | .fieldError e => .fieldError e
  | .permissionError e => .permissionError e
  | .attributeError => .attributeError
  | .pyError e => .pyError e

/-! ### Type coercion (`MqlBuilder.convert_to_alchemy_type`) -/

/-- Values produced by coercion and stored inside expressions. -/
inductive CoercedValue where
  | cNull
  | cBool (b : Bool)
  | cInt (n : Int)
  | cFloat (q : Rat)
  | cStr (s : String)
  | cDate (y m d : Nat)
  | cDateTime (y mo d h mi s : Nat)
  | cTime (h m s : Nat)
deriving DecidableEq

/-- Python `str(value)`. Exact for strings, ints and bools (the cases the code
compares against literals or stringifies for claims); the float repr is the
rational's repr and list/dict reprs are abbreviated -- none of these can ever
equal `"null"`, `"false"` or `"0"`, matching CPython. -/
def pyStr : MqlValue → String
  | .vNull => "None"
  | .vBool b => if b then "True" else "False"
  | .vInt n => toString n
  | .vFloat q => toString q
  | .vStr s => s
  | .vList _ => "[list]"
  | .vDoc _ => "[dict]"

/-- Python `str(value).lower() == "null"`: only a string can stringify to
"null" (`str` of ints/floats/bools/lists/dicts never does; `None` is caught by
the `value is None` test first). -/
def strLowerEqNull : MqlValue → Bool
  | .vStr s => lowerStr s == "null"
  | _ => false

/-- Python `str(value).lower() == "false"` (reached only for non-bool values;
the bool case is kept for faithfulness although the call site excludes it). -/
def strLowerEqFalse : MqlValue → Bool
  | .vStr s => lowerStr s == "false"
  | .vBool b => !b
  | _ => false

/-- Python `value == "0"`: only a string compares equal to a string. -/
def pyEqStrZero : MqlValue → Bool
  | .vStr s => s == "0"
  | _ => false

/-- Python `value == 0`: true for `0`, `0.0` and `False`. -/
def pyEqIntZero : MqlValue → Bool
  | .vInt n => n == 0
  | .vFloat q => q == 0
  | .vBool b => !b
  | _ => false

/-- Python `isinstance(value, int)` (bools are ints in Python). -/
def pyIsInstInt : MqlValue → Bool
  | .vInt _ => true
  | .vBool _ => true
  | _ => false

/-- Truncation toward zero, Python `int(float)`. -/
def ratTruncToInt (q : Rat) : Int := Int.tdiv q.num (q.den : Int)

/-- Python `int(value)` for a non-int value: floats truncate, numeric strings
parse, bools map to 0/1, everything else raises. -/
def pyToInt : MqlValue → Except PyErr Int
  | .vInt n => .ok n
  | .vBool b => .ok (if b then 1 else 0)
  | .vFloat q => .ok (ratTruncToInt q)
  | .vStr s =>
    match parseIntStr s with
    | some n => .ok n
    | none => .error (.valueError "invalid literal for int")
  | _ => .error (.typeError "int() argument")

/-- Python `int(x) == x` for the `$mod` round-trip test: an int equals its
truncation; a float only if integral; a bool equals 0/1; a string is never
equal to an int. -/
def pyIntEqVal (i : Int) : MqlValue → Bool
  | .vInt n => i == n
  | .vFloat q => (i : Rat) == q
  | .vBool b => i == (if b then 1 else 0)
  | _ => false

/-- Python `float(value)` for a non-float value. -/
def pyToFloat : MqlValue → Except PyErr Rat
  | .vFloat q => .ok q
  | .vInt n => .ok (n : Rat)
  | .vBool b => .ok (if b then 1 else 0)
  | .vStr s =>
    match parseFloatStr s with
    | some q => .ok q
    | none => .error (.valueError "could not convert string to float")
  | _ => .error (.typeError "float() argument")

/-- Model of `datetime.datetime.strptime(value, "%Y-%m-%d").date()`: simplified
to zero-padded digit groups with basic range checks (no claim exercises this). -/
def strptimeDate (s : String) : Except PyErr CoercedValue :=
  match splitDot (String.mk (s.data.map (fun c => if c = '-' then '.' else c))) with
  | [y, m, d] =>
    match digitsToNat? y.data, digitsToNat? m.data, digitsToNat? d.data with
    | some yn, some mn, some dn =>
      if 1 ≤ mn ∧ mn ≤ 12 ∧ 1 ≤ dn ∧ dn ≤ 31 then .ok (.cDate yn mn dn)
      else .error (.valueError "time data does not match format")
    | _, _, _ => .error (.valueError "time data does not match format")
  | _ => .error (.valueError "time data does not match format")

/-- Model of `strptime(value, "%H:%M:%S").time()`, simplified as above. -/
def strptimeTime (s : String) : Except PyErr CoercedValue :=
  match splitDot (String.mk (s.data.map (fun c => if c = ':' then '.' else c))) with
  | [h, m, sec] =>
    match digitsToNat? h.data, digitsToNat? m.data, digitsToNat? sec.data with
    | some hn, some mn, some sn =>
      if hn ≤ 23 ∧ mn ≤ 59 ∧ sn ≤ 59 then .ok (.cTime hn mn sn)
      else .error (.valueError "time data does not match format")
    | _, _, _ => .error (.valueError "time data does not match format")
  | _ => .error (.valueError "time data does not match format")

/-- Model of `strptime(value, "%Y-%m-%d %H:%M:%S")`, simplified as above. -/
def strptimeDateTime (s : String) : Except PyErr CoercedValue :=
  match (splitDotAux (s.data.map (fun c => if c = ' ' then '.' else c)) []) with
  | [d, t] =>
    match strptimeDate d, strptimeTime t with
    | .ok (.cDate y mo dd), .ok (.cTime h mi ss) => .ok (.cDateTime y mo dd h mi ss)
    | _, _ => .error (.valueError "time data does not match format")
  | _ => .error (.valueError "time data does not match format")

/-- Embedding of `MqlBuilder.convert_to_alchemy_type` (lines 866-921): convert a
user-supplied value to the target column type, or raise
`TypeError`/`ValueError`. -/
def convert_to_alchemy_type (value : MqlValue) (ty : AlchemyType) :
    Except PyErr CoercedValue :=
  -- `if value is None or str(value).lower() == "null": return None`
  if value matches .vNull then .ok .cNull
  else if strLowerEqNull value then .ok .cNull
  else
    match ty with
    | .tInt =>
      -- `if not isinstance(value, int): return int(value) else: return value`
      match value with
      | .vInt n => .ok (.cInt n)
      | .vBool b => .ok (.cBool b)
      | v => (pyToInt v).map .cInt
    | .tText => .ok (.cStr (pyStr value))
    | .tBool =>
      match value with
      | .vBool b => .ok (.cBool b)
      | v =>
        -- `str(value).lower() == "false" or value == "0" or value == 0
        --  or value is False` (the last disjunct is subsumed by `value == 0`)
        .ok (.cBool (!(strLowerEqFalse v || pyEqStrZero v || pyEqIntZero v)))
    | .tDate =>
      match value with
      | .vStr s => strptimeDate s
      | _ => .error (.typeError "strptime() argument must be str")
    | .tDateTime =>
      match value with
      | .vStr s => strptimeDateTime s
      | _ => .error (.typeError "strptime() argument must be str")
    | .tFloat =>
      match value with
      | .vFloat q => .ok (.cFloat q)
      | v => (pyToFloat v).map .cFloat
    | .tTime =>
      match value with
      | .vStr s => strptimeTime s
      | _ => .error (.typeError "strptime() argument must be str")
    | .tUnknownType _ =>
      .error (.typeError "Unable to convert value to alchemy type.")

/-! ### The predicate syntax tree (SQLAlchemy expressions) -/

/-- Comparison operators on a column. -/
inductive CmpOp where
  | lt
  | le
  | eq
  | ne
  | ge
  | gt
deriving DecidableEq

/-- Syntax of the SQLAlchemy boolean expressions the compiler emits.
`andN`/`orN` keep their argument lists (n-ary `sqlalchemy.and_`/`or_`);
`hasP`/`anyP` are `rel.has(inner)` / `rel.any(inner)`; `hasEmptyP`/`anyEmptyP`
are the argumentless `rel.has()` / `rel.any()` from `$exists`; `nestedCond tag`
stands for an expression supplied by the caller's nested-conditions hook. -/
inductive Pred where
  | tt
  | andN (ps : List Pred)
  | orN (ps : List Pred)
  | notP (p : Pred)
  | hasP (rel : AttrRef) (inner : Pred)
  | anyP (rel : AttrRef) (inner : Pred)
  | hasEmptyP (rel : AttrRef)
  | anyEmptyP (rel : AttrRef)
  | compP (a : AttrRef) (op : CmpOp) (v : CoercedValue)
  | likeP (a : AttrRef) (pat : String)
  | inP (a : AttrRef) (vs : List CoercedValue)
  | modP (a : AttrRef) (divisor remainder : Int)
  | isNullP (a : AttrRef)
  | notNullP (a : AttrRef)
  | nestedCond (tag : String)

/-- Python truthiness of a coerced value (`if exists:` in the `$exists`
branch). -/
def coercedTruthy : CoercedValue → Bool
  | .cNull => false
  | .cBool b => b
  | .cInt n => n != 0
  | .cFloat q => q != 0
  | .cStr s => s != ""
  | .cDate _ _ _ => true
  | .cDateTime _ _ _ _ _ _ => true
  | .cTime _ _ _ => true

/-! ### Operator evaluator (`MqlBuilder._generate_expressions`) -/

/-- Errors inside the `try:` body of `_generate_expressions`: an explicitly
raised `MqlFieldError` (not caught by the `except` clause) or a raw Python
exception. -/
inductive GenBodyErr where
  | mql (e : FieldErr)
  | py (e : PyErr)

/-- Convert each element of an `$in`/`$nin` list, left to right, stopping at the
first failing conversion (the Python `for` loop). -/
def convertList (ty : AlchemyType) : List MqlValue → Except PyErr (List CoercedValue)
  | [] => .ok []
  | v :: rest =>
    match convert_to_alchemy_type v ty with
    | .error e => .error e
    | .ok c =>
      match convertList ty rest with
      | .error e => .error e
      | .ok cs => .ok (c :: cs)

/-- The `$mod` inner `try:` block (lines 175-185): truncate both list elements
to int, raising `TypeError` if either does not round-trip (`int(x) != x`). -/
def modInner (v0 v1 : MqlValue) : Except PyErr (Int × Int) :=
  match pyToInt v0 with
  | .error e => .error e
  | .ok divider =>
    if !pyIntEqVal divider v0 then
      .error (.typeError "Decimal provided instead of int.")
    else
      match pyToInt v1 with
      | .error e => .error e
      | .ok result =>
        if !pyIntEqVal result v1 then
          .error (.typeError "Decimal provided instead of int.")
        else
          .ok (divider, result)

/-- Body of `_generate_expressions` (the `try:` block, lines 124-222). -/
def genBody (op : String) (value : MqlValue) (attr : ClassAttr)
    (targetType : AlchemyType) (fullDataKey : String) : Except GenBodyErr Pred :=
  let ref := attr.toRef
  let conv : MqlValue → Except GenBodyErr CoercedValue := fun v =>
    match convert_to_alchemy_type v targetType with
    | .ok c => .ok c
    | .error e => .error (.py e)
  if op == "$lt" then (conv value).map (fun c => .compP ref .lt c)
  else if op == "$lte" then (conv value).map (fun c => .compP ref .le c)
  else if op == "$eq" then (conv value).map (fun c => .compP ref .eq c)
  else if op == "$ne" then (conv value).map (fun c => .compP ref .ne c)
  else if op == "$gte" then (conv value).map (fun c => .compP ref .ge c)
  else if op == "$gt" then (conv value).map (fun c => .compP ref .gt c)
  else if op == "$like" then .ok (.likeP ref ("%" ++ pyStr value ++ "%"))
  else if op == "$in" || op == "$nin" then
    match value with
    | .vList xs =>
      match convertList targetType xs with
      | .ok cs =>
        if op == "$nin" then .ok (.notP (.inP ref cs)) else .ok (.inP ref cs)
      | .error e => .error (.py e)
    | _ =>
      .error (.mql ⟨fullDataKey, value, some op,
        "$in and $nin values must be a list.", "invalid_in_comp"⟩)
  else if op == "$mod" then
    if targetType != .tInt then
      .error (.mql ⟨fullDataKey, value, some op,
        "$mod may only be used on integer fields.", "invalid_op"⟩)
    else
      match value with
      | .vList [v0, v1] =>
        match modInner v0 v1 with
        | .ok (d, r) => .ok (.modP ref d r)
        | .error _ =>
          .error (.mql ⟨fullDataKey, value, some op,
            "Non int $mod value supplied", "invalid_mod_values"⟩)
      | _ =>
        .error (.mql ⟨fullDataKey, value, some op,
          "$mod value must be list of two integers.", "invalid_mod_values"⟩)
  else if op == "$exists" then
    match conv value with
    | .error e => .error e
    | .ok ex =>
      -- `attr.property` raises AttributeError on a bare model class; that
      -- exception is not caught by the `except (TypeError, ValueError)` clause.
      match attr with
      | .modelCls _ => .error (.py .attributeError)
      | .instAttr _ _ (.rel _ uselist) =>
        if uselist then
          .ok (if coercedTruthy ex then .anyEmptyP ref else .notP (.anyEmptyP ref))
        else
          .ok (if coercedTruthy ex then .hasEmptyP ref else .notP (.hasEmptyP ref))
      | .instAttr _ _ (.col _) =>
        .ok (if coercedTruthy ex then .notNullP ref else .isNullP ref)
  else
    .error (.mql ⟨fullDataKey, value, some op, "Invalid operator.", "invalid_op"⟩)

/-- Embedding of `MqlBuilder._generate_expressions` (lines 105-232): the
`except (TypeError, ValueError)` wrapper re-raises conversion failures as a
contextualized `data_conversion_error`; `MqlFieldError` and `AttributeError`
pass through. -/
def _generate_expressions (op : String) (value : MqlValue) (attr : ClassAttr)
    (targetType : AlchemyType) (fullDataKey : String) : Except ItemErr Pred :=
  match genBody op value attr targetType fullDataKey with
  | .ok e => .ok e
  | .error (.mql fe) => .error (.fieldError fe)
  | .error (.py .attributeError) => .error .attributeError
  | .error (.py (.typeError _)) | .error (.py (.valueError _)) =>
    .error (.fieldError ⟨fullDataKey, value, some op,
      "Unable to convert provided data to the proper type for this field.",
      "data_conversion_error"⟩)

/-! ### Path resolution (`_get_class_attributes`, `_get_full_attr_name`) -/

/-- Loop body of `_get_class_attributes`: walk the dot-separated segments,
advancing through relationships; a purely numeric segment after a relationship
appends the target model class without consuming the relationship. `getattr`
on a missing attribute raises `AttributeError`; so does attribute access on a
column attribute (its model fields are not present on it). -/
def gcaGo (sch : Schema) : List String → ClassAttr → List ClassAttr →
    Except PyErr (List ClassAttr)
  | [], _, acc => .ok acc
  | seg :: rest, root, acc =>
    let getattrFrom : String → Except PyErr (List ClassAttr) := fun modelName =>
      match lookupFieldIn sch modelName seg with
      | some d => gcaGo sch rest (.instAttr modelName seg d) (acc ++ [.instAttr modelName seg d])
      | none => .error .attributeError
    match root with
    | .instAttr _ _ (.rel target _) =>
      if seg.length > 0 && headCharIsDigit seg then
        gcaGo sch rest root (acc ++ [.modelCls target])
      else getattrFrom target
    | .modelCls n => getattrFrom n
    | .instAttr _ _ (.col _) => .error .attributeError

/-- Embedding of `_get_class_attributes` (lines 972-1014). -/
def _get_class_attributes (sch : Schema) (modelName : String) (attrName : String) :
    Except PyErr (List ClassAttr) :=
  let split := splitDot attrName
  if split = [""] then .ok [.modelCls modelName]
  else gcaGo sch split (.modelCls modelName) [.modelCls modelName]

/-- Embedding of `_get_full_attr_name` (lines 924-936):
`".".join(attr_name_stack + [short_attr_name] if short_attr_name else [])`
(note the Python precedence: a falsy short name yields the empty string). -/
def _get_full_attr_name (stack : List String) (short : String) : String :=
  if short = "" then "" else joinDot (stack ++ [short])

/-- Embedding of `_is_whitelisted` (lines 939-969): unresolvable names are
rejected; purely numeric index segments are stripped before the list lookup.
(The Python `attr[0]` would raise IndexError on an empty segment; resolution
succeeding guarantees all segments are nonempty or numeric-headed.) -/
def _is_whitelisted (sch : Schema) (modelName : String) (attrName : String)
    (whitelist : List String) : Bool :=
  match _get_class_attributes sch modelName attrName with
  | .error _ => false
  | .ok _ =>
    let kept := (splitDot attrName).filter (fun a => !headCharIsDigit a)
    whitelist.contains (joinDot kept)

/-! ### Caller-supplied policy hooks -/

/-- The `whitelist` parameter: a list, a callable, or `None` (lines 425-437). -/
inductive WhitelistSpec where
  | wlNone
  | list (l : List String)
  | func (f : String → Bool)

/-- The `is_whitelisted` closure built at lines 425-437. With `None`, the body
is `if data_key: return True` -- an empty key falls through and returns the
falsy `None`. -/
def mkIsWhitelisted (sch : Schema) (modelName : String) : WhitelistSpec →
    (String → Bool)
  | .list l => fun k => _is_whitelisted sch modelName k l
  | .func f => f
  | .wlNone => fun k => k != ""

/-- The value shapes a nested-conditions supplier may return (lines 597-602):
a single expression or a list; tuples are converted to lists, so both collapse
to `many`. -/
inductive NCVal where
  | one (p : Pred)
  | many (ps : List Pred)

/-- The `nested_conditions` parameter: a dict, a callable, or `None`. -/
inductive NCSpec where
  | ncNone
  | dict (d : List (String × NCVal))
  | func (f : String → Option NCVal)

/-- The `build_nested_conditions` closure built at lines 438-448. -/
def mkNestedConditions : NCSpec → (String → Option NCVal)
  | .dict d => fun k => (d.find? (fun kv => kv.1 == k)).map (fun kv => kv.2)
  | .func f => f
  | .ncNone => fun _ => none

/-- Normalization of a returned nested-condition value (lines 597-602). -/
def ncToList : Option NCVal → List Pred
  | none => []
  | some (.one p) => [p]
  | some (.many ps) => ps

/-! ### The stack machine (`MqlBuilder.parse_mql_filters`, lines 452-863) -/

/-- The combinator of an open scope frame on `query_tree_stack`: `$and`/`$or`/
`$not`, or a pending `rel.has(...)`/`rel.any(...)` existential scope. -/
inductive FrameOp where
  | fAnd
  | fOr
  | fNot
  | fHas (rel : AttrRef)
  | fAny (rel : AttrRef)

/-- An element of `query_tree_stack`: `{"op": ..., "expressions": [...]}`. -/
structure Frame where
  op : FrameOp
  expressions : List Pred

/-- The per-call mutable state of the `while query_stack:` loop (lines
457-473). `queryStack` and `queryTreeStack` are kept top-first (Python
appends and pops at the right end); the four name stacks are kept in Python
list order (bottom first) because they are joined bottom-to-top and sliced
`[1:]`. `relationTypeStack` is pushed and popped but never read, as in the
source. -/
structure MqlState where
  queryStack : List MqlValue
  attrNameStack : List String
  cAttrNameStack : List String
  subQueryNameStack : List String
  cSubQueryNameStack : List String
  relationTypeStack : List ClassAttr
  queryTreeStack : List Frame

/-- The immutable per-call environment: schema, root model, and the three
closures built at lines 423-448. The stack-size limit is passed separately so
the loop body visibly cannot depend on it. -/
structure Ctx where
  sch : Schema
  modelName : String
  isWhitelisted : String → Bool
  buildNestedConditions : String → Option NCVal
  convertKeyNames : String → String

/-- The ordered positions of relationship attributes inside a resolved
attribute chain, skipping a relationship whose following path segment is a
numeric index (lines 689-696 and 706-714). -/
def relIndexes (cas : List ClassAttr) (splitFull : List String) : List Nat :=
  cas.enum.filterMap (fun p =>
    if isRelationshipAttr p.2 &&
        (p.1 == cas.length - 1 || !headCharIsDigit (splitFull.getD (p.1 + 1) ""))
    then some p.1 else none)

/-- Processing of a popped single-key dict `{key: val}` (lines 511-861). -/
def processSingle (ctx : Ctx) (key : String) (val : MqlValue) (st : MqlState) :
    Except ItemErr MqlState :=
  -- lines 519-529: derive the converted trailing key name
  let cKey : String :=
    if !startsWithDollar key then
      let fullAttrName := _get_full_attr_name (st.attrNameStack.drop 1) key
      let cFullAttrName := ctx.convertKeyNames fullAttrName
      let splitC := splitDot cFullAttrName
      joinDot (splitC.drop (splitC.length - (splitDot key).length))
    else ""    -- c_key = None; unread in the `$`-prefixed branches
  if key == "$or" || key == "$and" then
    -- lines 530-541
    let opf : FrameOp := if key == "$or" then .fOr else .fAnd
    let pushed : Except ItemErr (List MqlValue) :=
      match val with
      | .vList xs => .ok xs
      | .vDoc es => .ok (es.map (fun kv => MqlValue.vStr kv.1))
      | .vStr s => .ok (s.data.map (fun c => MqlValue.vStr (String.mk [c])))
      | _ => .error (.pyError (.typeError "object is not iterable"))
    pushed.map (fun xs =>
      { st with
        queryTreeStack := ⟨opf, []⟩ :: st.queryTreeStack
        queryStack := xs.reverse ++ .vStr "POP_query_tree_stack" :: st.queryStack })
  else if key == "$not" then
    -- lines 542-548
    .ok { st with
      queryTreeStack := ⟨.fNot, []⟩ :: st.queryTreeStack
      queryStack := val :: .vStr "POP_query_tree_stack" :: st.queryStack }
  else if key == "$nor" then
    -- lines 549-555: rewritten as `$not {$or: [...]}`
    .ok { st with
      queryTreeStack := ⟨.fNot, []⟩ :: st.queryTreeStack
      queryStack := .vDoc [("$or", val)] :: .vStr "POP_query_tree_stack" :: st.queryStack }
  else if key == "$elemMatch" then
    -- lines 556-621
    let attrName := joinDot st.attrNameStack
    let parentSubQueryNames := joinDot st.subQueryNameStack
    let cAttrName := joinDot st.cAttrNameStack
    let cParentSubQueryNames := joinDot st.cSubQueryNameStack
    let cSubQueryName := strDropChars cAttrName (cParentSubQueryNames.length + 1)
    let subQueryName := strDropChars attrName (parentSubQueryNames.length + 1)
    match _get_class_attributes ctx.sch ctx.modelName
        (joinDot (st.cAttrNameStack.drop 1)) with
    | .error _ => .error .attributeError
    | .ok classAttrs =>
      let subClass := classAttrs.getLastD (.modelCls ctx.modelName)
      match subClass with
      | .instAttr o f (.rel _ uselist) =>
        let required := ctx.buildNestedConditions (joinDot (st.attrNameStack.drop 1))
        .ok { st with
          cSubQueryNameStack := st.cSubQueryNameStack ++ [cSubQueryName]
          subQueryNameStack := st.subQueryNameStack ++ [subQueryName]
          relationTypeStack := subClass :: st.relationTypeStack
          queryTreeStack :=
            ⟨if uselist then .fAny ⟨o, f⟩ else .fHas ⟨o, f⟩, ncToList required⟩
              :: st.queryTreeStack
          queryStack := val :: .vStr "POP_query_tree_stack"
            :: .vStr "POP_sub_query_name_stack" :: st.queryStack }
      | _ =>
        .error (.fieldError ⟨joinDot (st.attrNameStack.drop 1), val, some key,
          "$elemMatch not applied to subobject.", "invalid_elem_match"⟩)
  else if startsWithDollar key then
    -- lines 622-657: other `$` operators on the currently open attribute
    match _get_class_attributes ctx.sch ctx.modelName
        (joinDot (st.cAttrNameStack.drop 1)) with
    | .error _ => .error .attributeError
    | .ok classAttrs =>
      let lastAttr := classAttrs.getLastD (.modelCls ctx.modelName)
      let attrTarget : Except ItemErr (ClassAttr × AlchemyType) :=
        match lastAttr with
        | .instAttr _ _ (.col colTy) =>
          .ok (lastAttr, if key == "$exists" then .tBool else colTy)
        | _ =>
          if key == "$exists" then .ok (lastAttr, .tBool)
          else
            .error (.fieldError ⟨joinDot (st.attrNameStack.drop 1), val, some key,
              "Relationships can't be checked for equality.",
              "invalid_relation_comp"⟩)
      match attrTarget with
      | .error e => .error e
      | .ok (attr, targetType) =>
        match _generate_expressions key val attr targetType
            (joinDot (st.attrNameStack.drop 1)) with
        | .error e => .error e
        | .ok expr =>
          match st.queryTreeStack with
          | f :: rest =>
            .ok { st with
              queryTreeStack := { f with expressions := f.expressions ++ [expr] } :: rest }
          | [] => .error (.pyError (.typeError "frame stack underflow"))
  else if ctx.isWhitelisted (_get_full_attr_name (st.cAttrNameStack.drop 1) cKey) then
    -- lines 658-850: a plain (possibly dotted) field name
    if st.attrNameStack.length > st.subQueryNameStack.length then
      -- lines 660-673
      .error (.fieldError ⟨joinDot (st.attrNameStack.drop 1), .vDoc [(key, val)],
        some "$eq", "Attempts at comparing an attribute to an object aren't valid.",
        "invalid_attr_comp"⟩)
    else
      let cFullAttrName := _get_full_attr_name st.cAttrNameStack cKey
      let fullAttrName := _get_full_attr_name st.attrNameStack key
      match _get_class_attributes ctx.sch ctx.modelName
          (_get_full_attr_name (st.cAttrNameStack.drop 1) cKey) with
      | .error _ => .error .attributeError
      | .ok classAttrs =>
        let cSplitFullAttr := splitDot cFullAttrName
        let splitFullAttr := splitDot fullAttrName
        let relationIndexes := relIndexes classAttrs splitFullAttr
        match _get_class_attributes ctx.sch ctx.modelName
            (joinDot (st.cSubQueryNameStack.drop 1)) with
        | .error _ => .error .attributeError
        | .ok psqClassAttrs =>
          let psqSplitAttrName := splitDot (joinDot st.cSubQueryNameStack)
          let psqRelationIndexes := relIndexes psqClassAttrs psqSplitAttrName
          if psqRelationIndexes.length == relationIndexes.length then
            -- lines 715-724: no new relationship crossing
            .ok { st with
              attrNameStack := st.attrNameStack ++ [key]
              cAttrNameStack := st.cAttrNameStack ++ [cKey]
              queryStack := (if val.isDoc then val else .vDoc [("$eq", val)])
                :: .vStr "POP_attr_name_stack" :: st.queryStack }
          else if relationIndexes.length > psqRelationIndexes.length then
            -- lines 725-850: open the next relation crossing
            let newRelationIndex := relationIndexes.getD psqRelationIndexes.length 0
            let priorRelationIndex := (psqRelationIndexes.getLast?).getD 0
            let segCount := newRelationIndex - priorRelationIndex
            let attrName2 :=
              joinDot ((splitFullAttr.drop (priorRelationIndex + 1)).take segCount)
            let cAttrName2 :=
              joinDot ((cSplitFullAttr.drop (priorRelationIndex + 1)).take segCount)
            let ans := st.attrNameStack ++ [attrName2]
            let cans := st.cAttrNameStack ++ [cAttrName2]
            let subAttrName := joinDot (splitFullAttr.drop (newRelationIndex + 1))
            let lastRel := (relationIndexes.getLast?).getD 0
            let wrapElemMatch : MqlState := { st with
              attrNameStack := ans
              cAttrNameStack := cans
              queryStack := .vDoc [("$elemMatch", .vDoc [(subAttrName, val)])]
                :: .vStr "POP_attr_name_stack" :: st.queryStack }
            match val with
            | .vDoc ves =>
              if newRelationIndex == lastRel then
                if subAttrName != "" then
                  -- lines 773-777
                  .ok wrapElemMatch
                else if ves.isEmpty then
                  -- lines 779-794
                  .error (.fieldError ⟨joinDot (ans.drop 1), val, none,
                    "Fields can't be compared to empty objects.",
                    "invalid_empty_comp"⟩)
                else
                  -- lines 795-825: explicit or implicit $elemMatch per sub key
                  let subItems := ves.map (fun kv =>
                    if kv.1 == "$elemMatch" then MqlValue.vDoc [("$elemMatch", kv.2)]
                    else if kv.1 == "$exists" then val
                    else MqlValue.vDoc [("$elemMatch", .vDoc [(kv.1, kv.2)])])
                  .ok { st with
                    attrNameStack := ans
                    cAttrNameStack := cans
                    queryTreeStack := ⟨.fAnd, []⟩ :: st.queryTreeStack
                    queryStack := subItems.reverse ++ .vStr "POP_query_tree_stack"
                      :: .vStr "POP_attr_name_stack" :: st.queryStack }
              else
                -- crossing is not the last required one: wrap as $elemMatch
                .ok wrapElemMatch
            | _ =>
              if newRelationIndex == lastRel && subAttrName == "" then
                -- lines 827-844
                .error (.fieldError ⟨joinDot (ans.drop 1), val, none,
                  "Relationships can't be compared to primitive values.",
                  "invalid_relation_comp"⟩)
              else
                -- lines 845-850
                .ok wrapElemMatch
          else
            -- len(relation_indexes) < len(psq_relation_indexes): the source has
            -- no branch for this; the item is consumed with no effect.
            .ok st
  else
    -- lines 851-861
    .error (.permissionError ⟨_get_full_attr_name (st.attrNameStack.drop 1) key,
      val, none, "Attempt made to query a field without proper permission.",
      "invalid_whitelist_permission"⟩)

/-- Processing of one popped work item (lines 477-861): sentinel strings,
dicts by arity; any other value silently falls through both `isinstance`
tests. -/
def processItem (ctx : Ctx) (item : MqlValue) (st : MqlState) :
    Except ItemErr MqlState :=
  match item with
  | .vStr s =>
    if s == "POP_attr_name_stack" then
      .ok { st with attrNameStack := st.attrNameStack.dropLast,
                    cAttrNameStack := st.cAttrNameStack.dropLast }
    else if s == "POP_sub_query_name_stack" then
      .ok { st with subQueryNameStack := st.subQueryNameStack.dropLast,
                    cSubQueryNameStack := st.cSubQueryNameStack.dropLast,
                    relationTypeStack := st.relationTypeStack.tail }
    else if s == "POP_query_tree_stack" then
      -- lines 486-501: close the innermost scope frame
      match st.queryTreeStack with
      | qt :: parent :: restFrames =>
        let es := if qt.expressions.isEmpty then [Pred.tt] else qt.expressions
        let newExprs : List Pred :=
          match qt.op with
          | .fAnd => [.andN es]
          | .fOr => [.orN es]
          | .fNot => [.notP (es.headD .tt)]
          | .fHas r => [.hasP r (.andN es)]
          | .fAny r => [.anyP r (.andN es)]
        .ok { st with queryTreeStack :=
          { parent with expressions := parent.expressions ++ newExprs } :: restFrames }
      | _ => .error (.pyError (.typeError "frame stack underflow"))
    else .ok st
  | .vDoc entries =>
    match entries with
    | [] => .ok st
    | [(key, value)] => processSingle ctx key value st
    | _ =>
      -- lines 503-510: implicit AND over the keys of a multi-key mapping
      .ok { st with
        queryTreeStack := ⟨.fAnd, []⟩ :: st.queryTreeStack,
        queryStack := (entries.map (fun kv => MqlValue.vDoc [kv])).reverse
          ++ .vStr "POP_query_tree_stack" :: st.queryStack }
  | _ => .ok st

/-- The stack-size guard at lines 475-476:
`if stack_size_limit and len(query_stack) > stack_size_limit` -- note the
Python truthiness test, under which a limit of `0` disables the guard. -/
def limitGuard (limit : Option Int) (stackLen : Nat) : Bool :=
  match limit with
  | none => false
  | some l => l != 0 && (stackLen : Int) > l

/-- The `while query_stack:` loop (lines 474-863), indexed by fuel. On normal
exit the root frame's accumulated expressions are returned, or `none` when
empty (lines 862-863 return `None` for a falsy list). -/
def runLoop (ctx : Ctx) (limit : Option Int) : Nat → MqlState →
    Except Err (Option (List Pred))
  | 0, _ => .error .outOfFuel
  | fuel + 1, st =>
    match st.queryStack with
    | [] =>
      match st.queryTreeStack with
      | f :: _ => .ok (if f.expressions.isEmpty then none else some f.expressions)
      | [] => .error (.pyError (.typeError "frame stack underflow"))
    | item :: rest =>
      if limitGuard limit st.queryStack.length then .error .tooComplex
      else
        match processItem ctx item { st with queryStack := rest } with
        | .error e => .error e.toErr
        | .ok st2 => runLoop ctx limit fuel st2

/-- The loop state seeded at lines 457-473. -/
def initState (modelName : String) (filters : MqlValue) : MqlState :=
  { queryStack := [filters]
    attrNameStack := [modelName]
    cAttrNameStack := [modelName]
    subQueryNameStack := [modelName]
    cSubQueryNameStack := [modelName]
    relationTypeStack := [.modelCls modelName]
    queryTreeStack := [⟨.fAnd, []⟩] }

/-- Embedding of `MqlBuilder.parse_mql_filters` (lines 318-863): compile an MQL
filter document into the list of SQLAlchemy expressions the caller ANDs onto
its query, `none` when there is nothing to filter by. -/
def parse_mql_filters (sch : Schema) (modelName : String)
    (whitelist : WhitelistSpec) (nestedConditions : NCSpec)
    (stackSizeLimit : Option Int) (convertKeyNamesFunc : Option (String → String))
    (fuel : Nat) (filters : Option Doc) : Except Err (Option (List Pred)) :=
  match filters with
  | none => .ok none
  | some doc =>
    let ctx : Ctx :=
      { sch := sch
        modelName := modelName
        isWhitelisted := mkIsWhitelisted sch modelName whitelist
        buildNestedConditions := mkNestedConditions nestedConditions
        convertKeyNames := convertKeyNamesFunc.getD id }
    runLoop ctx stackSizeLimit fuel (initState modelName (.vDoc doc))

/-! ### Observation helpers for the theorems -/

/-- The stable error code of a failed compile, when the failure carries one. -/
def errCode : Except Err (Option (List Pred)) → Option String
  | .error (.fieldError e) => some e.code
  | .error (.permissionError e) => some e.code
  | _ => none

/-- Did the compile fail with `MqlFieldPermissionError`? -/
def isPermissionErr : Except Err (Option (List Pred)) → Bool
  | .error (.permissionError _) => true
  | _ => false

/-- The structured attributes carried by an exception, when present: only the
`MqlFieldError` hierarchy carries `data_key`/`filter`/`op`/`message`/`code`. -/
def structuredData : Err → Option FieldErr
  | .fieldError e => some e
  | .permissionError e => some e
  | _ => none

/-- The stable error code of a failed operator evaluation, when structured. -/
def genCode : Except ItemErr Pred → Option String
  | .error (.fieldError e) => some e.code
  | _ => none

instance {ε α : Type} [DecidableEq ε] [DecidableEq α] :
    DecidableEq (Except ε α) := fun a b =>
  match a, b with
  | .ok x, .ok y =>
    if h : x = y then .isTrue (congrArg Except.ok h)
    else .isFalse (fun hh => h (Except.ok.inj hh))
  | .error x, .error y =>
    if h : x = y then .isTrue (congrArg Except.error h)
    else .isFalse (fun hh => h (Except.error.inj hh))
  | .ok _, .error _ => .isFalse (fun hh => Except.noConfusion hh)
  | .error _, .ok _ => .isFalse (fun hh => Except.noConfusion hh)

mutual

/-- Evaluation of a predicate over a single row carrying one integer column:
every column atom reads that value (`Int.emod` for the SQL `%` operator, which
agrees with SQL semantics on the nonnegative operands used here). Relation
subpredicates are outside this single-row model and evaluate to false. Used to
state that a compiled predicate matches a concrete column value. -/
def evalIntPred (v : Int) : Pred → Bool
  | .tt => true
  | .andN ps => evalIntPredAll v ps
  | .orN ps => evalIntPredAny v ps
  | .notP p => !evalIntPred v p
  | .hasP _ _ => false
  | .anyP _ _ => false
  | .hasEmptyP _ => false
  | .anyEmptyP _ => false
  | .compP _ op c =>
    match c with
    | .cInt n =>
      match op with
      | .lt => decide (v < n)
      | .le => decide (v ≤ n)
      | .eq => v == n
      | .ne => v != n
      | .ge => decide (v ≥ n)
      | .gt => decide (v > n)
    | _ => false
  | .likeP _ _ => false
  | .inP _ vs => vs.contains (.cInt v)
  | .modP _ d r => Int.emod v d == r
  | .isNullP _ => false
  | .notNullP _ => true
  | .nestedCond _ => false

/-- Conjunction over a list of predicates (single-int-row model). -/
def evalIntPredAll (v : Int) : List Pred → Bool
  | [] => true
  | p :: ps => evalIntPred v p && evalIntPredAll v ps

/-- Disjunction over a list of predicates (single-int-row model). -/
def evalIntPredAny (v : Int) : List Pred → Bool
  | [] => false
  | p :: ps => evalIntPred v p || evalIntPredAny v ps

end

/-! ### A concrete schema (the Chinook subset the repository tests against) -/

def trackModel : ModelDef :=
  ⟨"Track", [("track_id", .col .tInt), ("name", .col .tText),
             ("milliseconds", .col .tInt), ("album", .rel "Album" false)]⟩

def playlistModel : ModelDef :=
  ⟨"Playlist", [("playlist_id", .col .tInt), ("name", .col .tText),
                ("tracks", .rel "Track" true)]⟩

def albumModel : ModelDef :=
  ⟨"Album", [("album_id", .col .tInt), ("title", .col .tText),
             ("artist", .rel "Artist" false), ("tracks", .rel "Track" true)]⟩

def artistModel : ModelDef :=
  ⟨"Artist", [("artist_id", .col .tInt), ("name", .col .tText)]⟩

def chinook : Schema := [albumModel, artistModel, playlistModel, trackModel]

/-- A schema with a single column of a vendor type outside the built-in type
lists, exercising the unknown-type conversion failure. -/
def weirdSchema : Schema := [⟨"W", [("blob", .col (.tUnknownType "JSONB"))]⟩]

/-! ### Shared lemmas

The concrete claim proofs evaluate the stack machine by rewriting: one
`runLoop_step` unfolding per loop iteration followed by `simp` normalization
of the new state. The simp attributes below let `simp` compute every
definition of the embedding (and the list/char primitives they use) on
concrete input. -/

attribute [simp] splitDotAux splitDot joinDot lowerStr startsWithDollar
  headCharIsDigit strDropChars digitsToNat? parseIntStr parseFloatStr
  MqlValue.isDoc MqlValue.isBool lookupModel lookupField lookupFieldIn
  ClassAttr.toRef isRelationshipAttr pyStr strLowerEqNull strLowerEqFalse
  pyEqStrZero pyEqIntZero pyIsInstInt ratTruncToInt pyToInt pyIntEqVal
  pyToFloat strptimeDate strptimeTime strptimeDateTime
  convert_to_alchemy_type convertList modInner genBody _generate_expressions
  gcaGo _get_class_attributes _get_full_attr_name _is_whitelisted
  mkIsWhitelisted mkNestedConditions ncToList coercedTruthy relIndexes
  processSingle processItem limitGuard initState ItemErr.toErr
  errCode isPermissionErr structuredData genCode
  evalIntPred evalIntPredAll evalIntPredAny
  trackModel playlistModel albumModel artistModel chinook weirdSchema
  List.find? List.findSome? List.enum List.enumFrom List.filterMap
  List.foldl List.getD List.getLastD List.getLast? List.headD
  List.isEmpty List.dropLast List.all Char.isDigit
  Except.map Except.bind Except.pure String.length
  List.drop List.take List.length

/-- One unfolding of the loop, stated so that rewriting applies to any fuel
term (including numerals): the structural recursion of `runLoop` expressed
with an `if`/`fuel - 1`. -/
theorem runLoop_step (ctx : Ctx) (limit : Option Int) (fuel : Nat)
    (st : MqlState) :
    runLoop ctx limit fuel st =
      if fuel = 0 then .error .outOfFuel
      else
        match st.queryStack with
        | [] =>
          match st.queryTreeStack with
          | f :: _ => .ok (if f.expressions.isEmpty then none else some f.expressions)
          | [] => .error (.pyError (.typeError "frame stack underflow"))
        | item :: rest =>
          if limitGuard limit st.queryStack.length then .error .tooComplex
          else
            match processItem ctx item { st with queryStack := rest } with
            | .error e => .error e.toErr
            | .ok st2 => runLoop ctx limit (fuel - 1) st2 := by
  cases fuel with
  | zero => rfl
  | succ n => rfl

/-- The loop body never raises `MqlTooComplex`: only the stack-size guard in
the loop head does. -/
theorem itemErr_toErr_ne_tooComplex (e : ItemErr) : e.toErr ≠ .tooComplex := by
  cases e <;> simp [ItemErr.toErr]

/-- With `stack_size_limit = 0` the guard `stack_size_limit and len(...) > ...`
is falsy, so the loop can never raise `MqlTooComplex`. -/
theorem runLoop_limit_zero_ne_tooComplex (ctx : Ctx) :
    ∀ (fuel : Nat) (st : MqlState),
      runLoop ctx (some 0) fuel st ≠ .error .tooComplex := by
  intro fuel
  induction fuel with
  | zero => intro st h; simp [runLoop] at h
  | succ n ih =>
    intro st h
    rw [runLoop] at h
    rcases hq : st.queryStack with _ | ⟨item, rest⟩
    · rw [hq] at h
      rcases hf : st.queryTreeStack with _ | ⟨f, fs⟩ <;> rw [hf] at h <;> simp at h
    · rw [hq] at h
      simp only [limitGuard] at h
      rcases hp : processItem ctx item { st with queryStack := rest } with e | st2
      · rw [hp] at h
        simp at h
        exact itemErr_toErr_ne_tooComplex e h
      · rw [hp] at h
        simp at h
        exact ih st2 h

/-- A limit of `0` and a limit of `None` run the loop identically (the guard is
the only consumer of the limit, and it is falsy for both). -/
theorem runLoop_limit_zero_eq_none (ctx : Ctx) :
    ∀ (fuel : Nat) (st : MqlState),
      runLoop ctx (some 0) fuel st = runLoop ctx none fuel st := by
  intro fuel
  induction fuel with
  | zero => intro st; rfl
  | succ n ih =>
    intro st
    rw [runLoop, runLoop]
    rcases hq : st.queryStack with _ | ⟨item, rest⟩
    · rfl
    · simp only [limitGuard]
      rcases hp : processItem ctx item { st with queryStack := rest } with e | st2
      · simp
      · simp only [Int.zero_ne_one]
        simp [ih st2]

/-! ### The claims -/

/-- C1: for root model `Playlist` with to-many relation `tracks` carrying the
scalar columns `track_id` and `milliseconds`, the sibling document
`{"tracks.track_id": x, "tracks.milliseconds": y}` compiles to an AND of two
independent `any()`-scopes (one per sibling leaf), while
`{"tracks": {"$elemMatch": {"track_id": x, "milliseconds": y}}}` compiles to a
single `any()`-scope whose inner predicate conjoins both comparisons; the two
compiled predicates differ. -/
theorem c1_sibling_vs_elemMatch_scopes (x y : Int) :
    parse_mql_filters chinook "Playlist" .wlNone .ncNone none none 100
        (some [("tracks.track_id", .vInt x), ("tracks.milliseconds", .vInt y)])
      = .ok (some [.andN
          [.anyP ⟨"Playlist", "tracks"⟩
            (.andN [.compP ⟨"Track", "milliseconds"⟩ .eq (.cInt y)]),
           .anyP ⟨"Playlist", "tracks"⟩
            (.andN [.compP ⟨"Track", "track_id"⟩ .eq (.cInt x)])]]) ∧
    parse_mql_filters chinook "Playlist" .wlNone .ncNone none none 100
        (some [("tracks", .vDoc [("$elemMatch",
          .vDoc [("track_id", .vInt x), ("milliseconds", .vInt y)])])])
      = .ok (some [.andN
          [.anyP ⟨"Playlist", "tracks"⟩
            (.andN [.andN [.compP ⟨"Track", "milliseconds"⟩ .eq (.cInt y),
                           .compP ⟨"Track", "track_id"⟩ .eq (.cInt x)]])]]) ∧
    (Pred.andN
        [.anyP ⟨"Playlist", "tracks"⟩
          (.andN [.compP ⟨"Track", "milliseconds"⟩ .eq (.cInt y)]),
         .anyP ⟨"Playlist", "tracks"⟩
          (.andN [.compP ⟨"Track", "track_id"⟩ .eq (.cInt x)])]
      ≠ Pred.andN
        [.anyP ⟨"Playlist", "tracks"⟩
          (.andN [.andN [.compP ⟨"Track", "milliseconds"⟩ .eq (.cInt y),
                         .compP ⟨"Track", "track_id"⟩ .eq (.cInt x)]])]) := by
  refine ⟨?_, ?_, by simp⟩ <;>
    (simp only [parse_mql_filters, initState]
     repeat (rw [runLoop_step]; simp))

/-- C2: with key translator `lowerStr` and a logging nested-conditions
supplier, compiling `{"TRACKS.TRACK_ID": 5}` over `Playlist` seeds the opened
existential scope with the supplier's answer for the RAW external path
`"TRACKS"` -- not the translated path `"tracks"` -- contradicting the
docstring's promise that the key has been processed by
`convert_key_names_func`. -/
theorem c2_nested_conditions_receive_untranslated_path :
    parse_mql_filters chinook "Playlist" .wlNone
        (.func (fun k => some (.one (.nestedCond k)))) none (some lowerStr) 100
        (some [("TRACKS.TRACK_ID", .vInt 5)])
      = .ok (some [.anyP ⟨"Playlist", "tracks"⟩
          (.andN [.nestedCond "TRACKS",
                  .compP ⟨"Track", "track_id"⟩ .eq (.cInt 5)])]) := by
  simp only [parse_mql_filters, initState]
  repeat (rw [runLoop_step]; simp)

/-- C3 counterexample: with `whitelist = None`, a filter key naming a field
that does not exist on the schema aborts the compile with a raw, unstructured
`AttributeError` carrying none of the structured attributes (`data_key`,
filter, op, message, code), contrary to the claim. -/
theorem c3_unknown_field_unstructured_counterexample :
    parse_mql_filters chinook "Playlist" .wlNone .ncNone none none 100
        (some [("bad_field", .vInt 5)]) = .error .attributeError ∧
    structuredData .attributeError = none := by
  refine ⟨?_, rfl⟩
  simp only [parse_mql_filters, initState]
  repeat (rw [runLoop_step]; simp)

/-- C3 amended: failures raised through the Mql error hierarchy are single
structured objects carrying `data_key`, the offending fragment, the (nullable)
operator, a message and a stable code -- e.g. a relation compared to a
primitive -- but a filter key naming a field absent from the schema with
`whitelist = None` aborts the compile with an unstructured `AttributeError`
carrying none of those attributes. -/
theorem c3_amended_structured_errors :
    parse_mql_filters chinook "Playlist" .wlNone .ncNone none none 100
        (some [("tracks", .vInt 7)])
      = .error (.fieldError ⟨"tracks", .vInt 7, none,
          "Relationships can't be compared to primitive values.",
          "invalid_relation_comp"⟩) ∧
    parse_mql_filters chinook "Playlist" .wlNone .ncNone none none 100
        (some [("bad_field", .vInt 5)]) = .error .attributeError := by
  refine ⟨?_, ?_⟩ <;>
    (simp only [parse_mql_filters, initState]
     repeat (rw [runLoop_step]; simp))

/-- C4: `stack_size_limit = 1` with a two-key top-level document fails with
`MqlTooComplex` (the size check runs before each popped item), while the same
document with limit `10` compiles successfully. -/
theorem c4_complexity_limit :
    parse_mql_filters chinook "Album" .wlNone .ncNone (some 1) none 100
        (some [("album_id", .vInt 1), ("title", .vStr "X")])
      = .error .tooComplex ∧
    parse_mql_filters chinook "Album" .wlNone .ncNone (some 10) none 100
        (some [("album_id", .vInt 1), ("title", .vStr "X")])
      = .ok (some [.andN [.compP ⟨"Album", "title"⟩ .eq (.cStr "X"),
                          .compP ⟨"Album", "album_id"⟩ .eq (.cInt 1)]]) := by
  refine ⟨?_, ?_⟩ <;>
    (simp only [parse_mql_filters, initState]
     repeat (rw [runLoop_step]; simp))

/-- C5: a plain field path rejected by a list whitelist or by a callable
whitelist fails with `MqlFieldPermissionError` (whatever the filter value)
even though the path resolves against the schema, while `whitelist = None`
raises no permission error for any resolvable field path of the schema
(checked over every non-indexed resolvable path and representative values). -/
theorem c5_whitelist_permission :
    (∀ v : MqlValue,
      parse_mql_filters chinook "Playlist" (.list []) .ncNone none none 100
          (some [("tracks.track_id", v)])
        = .error (.permissionError ⟨"tracks.track_id", v, none,
            "Attempt made to query a field without proper permission.",
            "invalid_whitelist_permission"⟩)) ∧
    (∀ v : MqlValue,
      parse_mql_filters chinook "Playlist" (.func (fun _ => false)) .ncNone
          none none 100 (some [("tracks.track_id", v)])
        = .error (.permissionError ⟨"tracks.track_id", v, none,
            "Attempt made to query a field without proper permission.",
            "invalid_whitelist_permission"⟩)) ∧
    (_get_class_attributes chinook "Playlist" "tracks.track_id"
      = .ok [.modelCls "Playlist",
             .instAttr "Playlist" "tracks" (.rel "Track" true),
             .instAttr "Track" "track_id" (.col .tInt)]) ∧
    (∀ k ∈ (["playlist_id", "name", "tracks", "tracks.track_id",
             "tracks.name"] : List String),
      ∀ v ∈ ([.vNull, .vInt 7, .vStr "abc", .vList [.vInt 1]] : List MqlValue),
        isPermissionErr (parse_mql_filters chinook "Playlist" .wlNone .ncNone
          none none 100 (some [(k, v)])) = false) := by
  refine ⟨?_, ?_, by simp, ?_⟩
  · intro v
    simp only [parse_mql_filters, initState]
    repeat (rw [runLoop_step]; simp)
  · intro v
    simp only [parse_mql_filters, initState]
    repeat (rw [runLoop_step]; simp)
  · intro k hk v hv
    fin_cases hk <;> fin_cases hv <;>
      (simp only [parse_mql_filters, initState]
       repeat (rw [runLoop_step]; simp))

/-- Witness for C5 at the concrete value 7 and path `tracks.track_id`. -/
theorem c5_whitelist_permission_witness :
    parse_mql_filters chinook "Playlist" (.list []) .ncNone none none 100
        (some [("tracks.track_id", .vInt 7)])
      = .error (.permissionError ⟨"tracks.track_id", .vInt 7, none,
          "Attempt made to query a field without proper permission.",
          "invalid_whitelist_permission"⟩) ∧
    isPermissionErr (parse_mql_filters chinook "Playlist" .wlNone .ncNone
        none none 100 (some [("tracks.track_id", .vInt 7)])) = false :=
  ⟨c5_whitelist_permission.1 (.vInt 7),
   c5_whitelist_permission.2.2.2 "tracks.track_id" (by simp) (.vInt 7) (by simp)⟩

/-- C6: `$mod` on a non-integer field fails `invalid_op`; a non-list value, a
list of the wrong length, or a list with a non-integral element (the decimal
cases `[2.2, 4]` and `[2, 4.4]`, as rationals) fails `invalid_mod_values`;
`$mod [18, 0]` on the integer field compiles to `playlist_id % 18 == 0`,
which matches the column value 18. -/
theorem c6_mod_operator :
    errCode (parse_mql_filters chinook "Playlist" .wlNone .ncNone none none 100
        (some [("name", .vDoc [("$mod", .vList [.vInt 2, .vInt 0])])]))
      = some "invalid_op" ∧
    errCode (parse_mql_filters chinook "Playlist" .wlNone .ncNone none none 100
        (some [("playlist_id", .vDoc [("$mod", .vInt 5)])]))
      = some "invalid_mod_values" ∧
    errCode (parse_mql_filters chinook "Playlist" .wlNone .ncNone none none 100
        (some [("playlist_id", .vDoc [("$mod", .vList [.vInt 5])])]))
      = some "invalid_mod_values" ∧
    genCode (_generate_expressions "$mod" (.vList [.vFloat (mkRat 11 5), .vInt 4])
        (.instAttr "Playlist" "playlist_id" (.col .tInt)) .tInt "playlist_id")
      = some "invalid_mod_values" ∧
    genCode (_generate_expressions "$mod" (.vList [.vInt 2, .vFloat (mkRat 22 5)])
        (.instAttr "Playlist" "playlist_id" (.col .tInt)) .tInt "playlist_id")
      = some "invalid_mod_values" ∧
    parse_mql_filters chinook "Playlist" .wlNone .ncNone none none 100
        (some [("playlist_id", .vDoc [("$mod", .vList [.vInt 18, .vInt 0])])])
      = .ok (some [.modP ⟨"Playlist", "playlist_id"⟩ 18 0]) ∧
    evalIntPred 18 (.modP ⟨"Playlist", "playlist_id"⟩ 18 0) = true := by
  refine ⟨?_, ?_, ?_, by decide, by decide, ?_, by decide⟩ <;>
    (simp only [parse_mql_filters, initState]
     repeat (rw [runLoop_step]; simp))

/-- C7: comparing either relation field of `Album` (to-one `artist`, to-many
`tracks`) to a non-mapping value fails `invalid_relation_comp`, and comparing
it to the empty mapping fails `invalid_empty_comp`. -/
theorem c7_relation_comparisons (v : MqlValue) (hv : v.isDoc = false) :
    parse_mql_filters chinook "Album" .wlNone .ncNone none none 100
        (some [("artist", v)])
      = .error (.fieldError ⟨"artist", v, none,
          "Relationships can't be compared to primitive values.",
          "invalid_relation_comp"⟩) ∧
    parse_mql_filters chinook "Album" .wlNone .ncNone none none 100
        (some [("tracks", v)])
      = .error (.fieldError ⟨"tracks", v, none,
          "Relationships can't be compared to primitive values.",
          "invalid_relation_comp"⟩) ∧
    errCode (parse_mql_filters chinook "Album" .wlNone .ncNone none none 100
        (some [("artist", .vDoc [])])) = some "invalid_empty_comp" ∧
    errCode (parse_mql_filters chinook "Album" .wlNone .ncNone none none 100
        (some [("tracks", .vDoc [])])) = some "invalid_empty_comp" := by
  refine ⟨?_, ?_, ?_, ?_⟩ <;>
    (cases v <;> (try simp at hv) <;>
      (simp only [parse_mql_filters, initState]
       repeat (rw [runLoop_step]; simp)))

/-- Witness for C7 at the concrete primitive 7. -/
theorem c7_relation_comparisons_witness :
    parse_mql_filters chinook "Album" .wlNone .ncNone none none 100
        (some [("artist", .vInt 7)])
      = .error (.fieldError ⟨"artist", .vInt 7, none,
          "Relationships can't be compared to primitive values.",
          "invalid_relation_comp"⟩) :=
  (c7_relation_comparisons (.vInt 7) rfl).1

/-- C8: for each scalar field of `Playlist` and every non-mapping literal, the
bare document `{field: literal}` and `{field: {"$eq": literal}}` compile
identically (the literal is rewritten to an explicit `$eq` before
evaluation). -/
theorem c8_bare_literal_equals_explicit_eq (fuel : Nat) (f : String)
    (v : MqlValue) (hf : f = "playlist_id" ∨ f = "name") (hv : v.isDoc = false) :
    parse_mql_filters chinook "Playlist" .wlNone .ncNone none none (fuel + 1)
        (some [(f, v)])
      = parse_mql_filters chinook "Playlist" .wlNone .ncNone none none (fuel + 1)
          (some [(f, .vDoc [("$eq", v)])]) := by
  rcases hf with h | h <;> subst h <;> cases v <;> (try simp at hv) <;>
    (simp only [parse_mql_filters, initState]
     rw [runLoop_step]
     conv_rhs => rw [runLoop_step]
     simp)

/-- Witness for C8 at `playlist_id` and the literal 3. -/
theorem c8_bare_literal_witness :
    parse_mql_filters chinook "Playlist" .wlNone .ncNone none none 100
        (some [("playlist_id", .vInt 3)])
      = parse_mql_filters chinook "Playlist" .wlNone .ncNone none none 100
          (some [("playlist_id", .vDoc [("$eq", .vInt 3)])]) :=
  c8_bare_literal_equals_explicit_eq 99 "playlist_id" (.vInt 3) (Or.inl rfl) rfl

set_option maxRecDepth 4000

/-- C9: type coercion sends `None` and (case-insensitively) the string
`"null"` to null for every target type; integer targets pass integers through
and parse other values; text targets stringify; bool targets pass booleans
through and otherwise coerce to false exactly on `"false"` (case-insensitive),
`"0"`, `0` or `False`; an unknown target type raises an uncontextualized
`TypeError`, which the operator evaluator re-wraps with path and operator
context as `data_conversion_error`. -/
theorem c9_type_coercion :
    (∀ ty, convert_to_alchemy_type .vNull ty = .ok .cNull) ∧
    (∀ ty s, lowerStr s = "null" →
      convert_to_alchemy_type (.vStr s) ty = .ok .cNull) ∧
    (∀ n : Int, convert_to_alchemy_type (.vInt n) .tInt = .ok (.cInt n)) ∧
    (convert_to_alchemy_type (.vStr "12") .tInt = .ok (.cInt 12)) ∧
    (convert_to_alchemy_type (.vFloat (mkRat 5 2)) .tInt = .ok (.cInt 2)) ∧
    (∀ v, v ≠ .vNull → strLowerEqNull v = false →
      convert_to_alchemy_type v .tText = .ok (.cStr (pyStr v))) ∧
    (∀ b, convert_to_alchemy_type (.vBool b) .tBool = .ok (.cBool b)) ∧
    (∀ v, v ≠ .vNull → strLowerEqNull v = false → v.isBool = false →
      (convert_to_alchemy_type v .tBool = .ok (.cBool false) ↔
        (strLowerEqFalse v = true ∨ pyEqStrZero v = true ∨
         pyEqIntZero v = true))) ∧
    (∀ v nm, v ≠ .vNull → strLowerEqNull v = false →
      convert_to_alchemy_type v (.tUnknownType nm)
        = .error (.typeError "Unable to convert value to alchemy type.")) ∧
    (_generate_expressions "$eq" (.vStr "blah")
        (.instAttr "W" "blob" (.col (.tUnknownType "JSONB")))
        (.tUnknownType "JSONB") "blob"
      = .error (.fieldError ⟨"blob", .vStr "blah", some "$eq",
          "Unable to convert provided data to the proper type for this field.",
          "data_conversion_error"⟩)) ∧
    (errCode (parse_mql_filters weirdSchema "W" .wlNone .ncNone none none 100
        (some [("blob", .vInt 1)])) = some "data_conversion_error") := by
  refine ⟨fun ty => rfl, ?_, fun n => rfl, by decide, by decide, ?_,
    fun b => rfl, ?_, ?_, by simp, ?_⟩
  · intro ty s h
    have hs : strLowerEqNull (.vStr s) = true := by
      simp only [strLowerEqNull, h]
      decide
    rw [convert_to_alchemy_type.eq_def, hs]
    rfl
  · intro v h1 h2
    cases v <;> first | rfl | exact absurd rfl h1 | simp_all
  · intro v h1 h2 h3
    cases v <;> first | exact absurd rfl h1 | (simp_all <;> tauto)
  · intro v nm h1 h2
    cases v <;> first | rfl | exact absurd rfl h1 | simp_all
  · simp only [parse_mql_filters, initState]
    repeat (rw [runLoop_step]; simp)

/-- Witness for C9: the null string coerces to null for an integer target. -/
theorem c9_type_coercion_witness :
    convert_to_alchemy_type (.vStr "NULL") .tInt = .ok .cNull :=
  c9_type_coercion.2.1 .tInt "NULL" (by decide)

/-- C10: a `stack_size_limit` of 0 is falsy in the guard
`if stack_size_limit and len(query_stack) > stack_size_limit`, so it behaves
exactly like `None`: for every schema, model, policy hooks, fuel and filter
document, the compile never fails with `MqlTooComplex` and agrees with the
`None`-limit compile. -/
theorem c10_limit_zero_disables_check (sch : Schema) (modelName : String)
    (wl : WhitelistSpec) (nc : NCSpec) (tr : Option (String → String))
    (fuel : Nat) (filters : Option Doc) :
    parse_mql_filters sch modelName wl nc (some 0) tr fuel filters
      ≠ .error .tooComplex ∧
    parse_mql_filters sch modelName wl nc (some 0) tr fuel filters
      = parse_mql_filters sch modelName wl nc none tr fuel filters := by
  constructor
  · match filters with
    | none => simp [parse_mql_filters]
    | some doc => exact runLoop_limit_zero_ne_tooComplex _ fuel _
  · match filters with
    | none => rfl
    | some doc => exact runLoop_limit_zero_eq_none _ fuel _

end Mql
